import Mathlib

/-!
Verification of the GNSS status checker's core logic: the frequency-band
classifier, the two dual-frequency detection paths, the satellite snapshot
aggregator, and the permission-gated native status assembler.

Numbers are modelled as rationals: every constant in the source is a finite
decimal literal and every operation used is exact comparison, subtraction
and absolute value, so the rational model is faithful to the intended
values.
-/

/-- Result record of the frequency-band classifier
(interface FrequencyBandInfo in the source). -/
structure FrequencyBandInfo where
  frequency : ℚ
  constellation : String
  band : String
  isDualFrequency : Bool
deriving DecidableEq, Repr

/- The CarrierFrequencies constant table from the source (values in MHz). -/
namespace CarrierFrequencies

def GPS_L1 : ℚ := 1575.42
def GPS_L2 : ℚ := 1227.6
def GPS_L3 : ℚ := 1381.05
def GPS_L4 : ℚ := 1379.913
def GPS_L5 : ℚ := 1176.45

def GLONASS_L1_MIN : ℚ := 1598.0625
def GLONASS_L1_MAX : ℚ := 1605.375
def GLONASS_L1_CENTER : ℚ := 1602.0
def GLONASS_L2_MIN : ℚ := 1242.9375
def GLONASS_L2_MAX : ℚ := 1248.625
def GLONASS_L2_CENTER : ℚ := 1246.0
def GLONASS_L3 : ℚ := 1202.025
def GLONASS_L5 : ℚ := 1176.45

def QZSS_L1 : ℚ := 1575.42
def QZSS_L2 : ℚ := 1227.6
def QZSS_L5 : ℚ := 1176.45
def QZSS_LEX : ℚ := 1278.75

def GALILEO_E1 : ℚ := 1575.42
def GALILEO_E5 : ℚ := 1191.795
def GALILEO_E5a : ℚ := 1176.45
def GALILEO_E5b : ℚ := 1207.14
def GALILEO_E6 : ℚ := 1278.75

def BEIDOU_B1 : ℚ := 1561.098
def BEIDOU_B1_2 : ℚ := 1589.742
def BEIDOU_B2 : ℚ := 1207.14
def BEIDOU_B2a : ℚ := 1176.45
def BEIDOU_B3 : ℚ := 1268.52

def NAVIC_L5 : ℚ := 1176.45
def NAVIC_S : ℚ := 2492.028

def SBAS_L1 : ℚ := 1575.42
def SBAS_L5 : ℚ := 1176.45

end CarrierFrequencies

/-- identifyFrequencyBand from the source: an if-chain over the carrier
frequency constants, first match wins, falling through to UNKNOWN.
The source's tolerance parameter defaults to 1.0; callers that rely on
the default pass 1 explicitly here. -/
def identifyFrequencyBand (frequencyMHz : ℚ) (tolerance : ℚ) : FrequencyBandInfo :=
  if |frequencyMHz - CarrierFrequencies.GPS_L1| ≤ tolerance then
    { frequency := frequencyMHz, constellation := "GPS", band := "L1", isDualFrequency := false }
  else if |frequencyMHz - CarrierFrequencies.GPS_L2| ≤ tolerance then
    { frequency := frequencyMHz, constellation := "GPS", band := "L2", isDualFrequency := true }
  else if |frequencyMHz - CarrierFrequencies.GPS_L5| ≤ tolerance then
    { frequency := frequencyMHz, constellation := "GPS", band := "L5", isDualFrequency := true }
  else if CarrierFrequencies.GLONASS_L1_MIN - tolerance ≤ frequencyMHz ∧
      frequencyMHz ≤ CarrierFrequencies.GLONASS_L1_MAX + tolerance then
    { frequency := frequencyMHz, constellation := "GLONASS", band := "L1",
      isDualFrequency := false }
  else if CarrierFrequencies.GLONASS_L2_MIN - tolerance ≤ frequencyMHz ∧
      frequencyMHz ≤ CarrierFrequencies.GLONASS_L2_MAX + tolerance then
    { frequency := frequencyMHz, constellation := "GLONASS", band := "L2",
      isDualFrequency := true }
  else if |frequencyMHz - CarrierFrequencies.GLONASS_L5| ≤ tolerance then
    { frequency := frequencyMHz, constellation := "GLONASS", band := "L5",
      isDualFrequency := true }
  else if |frequencyMHz - CarrierFrequencies.GALILEO_E1| ≤ tolerance then
    { frequency := frequencyMHz, constellation := "GALILEO", band := "E1",
      isDualFrequency := false }
  else if |frequencyMHz - CarrierFrequencies.GALILEO_E5a| ≤ tolerance then
    { frequency := frequencyMHz, constellation := "GALILEO", band := "E5a",
      isDualFrequency := true }
  else if |frequencyMHz - CarrierFrequencies.GALILEO_E5b| ≤ tolerance then
    { frequency := frequencyMHz, constellation := "GALILEO", band := "E5b",
      isDualFrequency := true }
  else if |frequencyMHz - CarrierFrequencies.BEIDOU_B1| ≤ tolerance then
    { frequency := frequencyMHz, constellation := "BEIDOU", band := "B1",
      isDualFrequency := false }
  else if |frequencyMHz - CarrierFrequencies.BEIDOU_B2a| ≤ tolerance then
    { frequency := frequencyMHz, constellation := "BEIDOU", band := "B2a",
      isDualFrequency := true }
  else if |frequencyMHz - CarrierFrequencies.BEIDOU_B3| ≤ tolerance then
    { frequency := frequencyMHz, constellation := "BEIDOU", band := "B3",
      isDualFrequency := true }
  else if |frequencyMHz - CarrierFrequencies.QZSS_L1| ≤ tolerance then
    { frequency := frequencyMHz, constellation := "QZSS", band := "L1",
      isDualFrequency := false }
  else if |frequencyMHz - CarrierFrequencies.QZSS_L5| ≤ tolerance then
    { frequency := frequencyMHz, constellation := "QZSS", band := "L5",
      isDualFrequency := true }
  else if |frequencyMHz - CarrierFrequencies.NAVIC_L5| ≤ tolerance then
    { frequency := frequencyMHz, constellation := "NAVIC", band := "L5",
      isDualFrequency := true }
  else if |frequencyMHz - CarrierFrequencies.NAVIC_S| ≤ tolerance then
    { frequency := frequencyMHz, constellation := "NAVIC", band := "S",
      isDualFrequency := true }
  else if |frequencyMHz - CarrierFrequencies.SBAS_L1| ≤ tolerance then
    { frequency := frequencyMHz, constellation := "SBAS", band := "L1",
      isDualFrequency := false }
  else if |frequencyMHz - CarrierFrequencies.SBAS_L5| ≤ tolerance then
    { frequency := frequencyMHz, constellation := "SBAS", band := "L5",
      isDualFrequency := true }
  else
    { frequency := frequencyMHz, constellation := "UNKNOWN", band := "UNKNOWN",
      isDualFrequency := false }

/-- isDualFrequencySupported from the source: some frequency in the list
classifies (at the default tolerance 1.0) to a dual-frequency band. -/
def isDualFrequencySupported (carrierFrequencies : List ℚ) : Bool :=
  carrierFrequencies.any fun freq => (identifyFrequencyBand freq 1).isDualFrequency

/-- getFrequencyBandInfo from the source: classify every frequency in order. -/
def getFrequencyBandInfo (carrierFrequencies : List ℚ) : List FrequencyBandInfo :=
  carrierFrequencies.map fun freq => identifyFrequencyBand freq 1

/-- One tracked satellite (interface SatelliteInfo in the source).
Fields that are optional in the source are Options here; absence is
distinct from a zero reading. -/
structure SatelliteInfo where
  svid : ℤ
  constellationType : ℤ
  constellationName : String
  cn0DbHz : Option ℚ
  elevation : Option ℚ
  azimuth : Option ℚ
  hasEphemeris : Bool
  hasAlmanac : Bool
  usedInFix : Bool
  carrierFrequencyHz : Option ℚ
deriving DecidableEq, Repr

/-- getSatellitesByConstellation from the source. -/
def getSatellitesByConstellation (satellites : List SatelliteInfo)
    (constellationType : ℤ) : List SatelliteInfo :=
  satellites.filter fun sat => sat.constellationType = constellationType

/-- getSatellitesUsedInFix from the source. -/
def getSatellitesUsedInFix (satellites : List SatelliteInfo) : List SatelliteInfo :=
  satellites.filter fun sat => sat.usedInFix

/-- getSatellitesWithGoodSignal from the source: signal present and at least
minCn0 (source default 20). The undefined check comes first, so an absent
signal is excluded for every threshold. -/
def getSatellitesWithGoodSignal (satellites : List SatelliteInfo)
    (minCn0 : ℚ) : List SatelliteInfo :=
  satellites.filter fun sat =>
    match sat.cn0DbHz with
    | some c => decide (c ≥ minCn0)
    | none => false

/-- The statistics record produced by getSatelliteStatistics. The source
builds byConstellation as a string-keyed object in insertion order; it is
modelled as an association list. -/
structure SatelliteStatistics where
  total : ℕ
  usedInFix : ℕ
  withEphemeris : ℕ
  withAlmanac : ℕ
  withGoodSignal : ℕ
  byConstellation : List (String × ℕ)
  averageSignalStrength : ℚ
  strongestSignal : ℚ
  weakestSignal : ℚ
deriving DecidableEq, Repr

/-- One step of the source's byConstellation grouping loop:
increment the entry for the name, inserting it at the end if new
(JavaScript object update semantics). -/
def bumpConstellation (m : List (String × ℕ)) (name : String) : List (String × ℕ) :=
  if m.any fun p => p.1 = name then
    m.map fun p => if p.1 = name then (p.1, p.2 + 1) else p
  else
    m ++ [(name, 1)]

/-- getSatelliteStatistics from the source. Mean, maximum and minimum are
taken over the signals that are present; with no present signal the source
leaves the zero initializers in place. -/
def getSatelliteStatistics (satellites : List SatelliteInfo) : SatelliteStatistics :=
  let signalStrengths :=
    (satellites.filter fun sat => sat.cn0DbHz.isSome).map fun sat => sat.cn0DbHz.getD 0
  { total := satellites.length
    usedInFix := (satellites.filter fun sat => sat.usedInFix).length
    withEphemeris := (satellites.filter fun sat => sat.hasEphemeris).length
    withAlmanac := (satellites.filter fun sat => sat.hasAlmanac).length
    withGoodSignal := (satellites.filter fun sat =>
      match sat.cn0DbHz with
      | some c => decide (c ≥ 20)
      | none => false).length
    byConstellation :=
      satellites.foldl (fun m sat => bumpConstellation m sat.constellationName) []
    averageSignalStrength :=
      if 0 < signalStrengths.length then
        signalStrengths.sum / (signalStrengths.length : ℚ)
      else 0
    strongestSignal :=
      match signalStrengths with
      | [] => 0
      | c :: cs => cs.foldl max c
    weakestSignal :=
      match signalStrengths with
      | [] => 0
      | c :: cs => cs.foldl min c }

/- The native module (GnssStatusCheckerModule.kt): companion-object
constants, the mutable module state, and the permission-gated methods. -/
namespace GnssStatusCheckerModule

def FREQ_TOLERANCE : ℚ := 10

/-- The DUAL_FREQUENCY_BANDS map of the native module
(nominal frequency, band label). -/
def DUAL_FREQUENCY_BANDS : List (ℚ × String) :=
  [(1176.45, "L5/E5a/B2a"),
   (1227.6, "L2"),
   (1207.14, "E5b/B2"),
   (1268.52, "B3"),
   (1278.75, "E6/LEX"),
   (1191.795, "E5"),
   (2492.028, "S")]

def GLONASS_L2_MIN : ℚ := 1242.9375
def GLONASS_L2_MAX : ℚ := 1248.625

/-- Per-satellite data held by the native module (data class SatelliteData). -/
structure SatelliteData where
  svid : ℤ
  constellationType : ℤ
  constellationName : String
  hasEphemeris : Bool
  hasAlmanac : Bool
  usedInFix : Bool
  cn0DbHz : Option ℚ
  elevation : Option ℚ
  azimuth : Option ℚ
  carrierFrequencyHz : Option ℚ
deriving DecidableEq, Repr

/-- The native module's mutable fields; callback registration effects are
abstracted to booleans. -/
structure ModuleState where
  currentSatelliteCount : ℕ
  satellitesUsedInFix : ℕ
  averageSignalToNoise : ℚ
  supportedConstellations : List ℤ
  detectedFrequencies : List ℚ
  satelliteDataList : List SatelliteData
  statusCallbackRegistered : Bool
  measurementsCallbackRegistered : Bool
deriving DecidableEq, Repr

/-- The field initializers of the native module. -/
def initialModuleState : ModuleState :=
  { currentSatelliteCount := 0
    satellitesUsedInFix := 0
    averageSignalToNoise := 0
    supportedConstellations := []
    detectedFrequencies := []
    satelliteDataList := []
    statusCallbackRegistered := false
    measurementsCallbackRegistered := false }

/-- getConstellationName from the native module. -/
def getConstellationName (constellation : ℤ) : String :=
  if constellation = 1 then "GPS"
  else if constellation = 2 then "SBAS"
  else if constellation = 3 then "GLONASS"
  else if constellation = 4 then "QZSS"
  else if constellation = 5 then "BEIDOU"
  else if constellation = 6 then "GALILEO"
  else if constellation = 7 then "IRNSS"
  else "UNKNOWN"

/-- The coarse dual-frequency check inlined in the native getGNSSStatus
(and updateMeasurements): any detected frequency within FREQ_TOLERANCE
(10 MHz) of a DUAL_FREQUENCY_BANDS nominal, or inside the GLONASS L2
range widened by FREQ_TOLERANCE. -/
def coarseIsDualFrequencySupported (detectedFrequencies : List ℚ) : Bool :=
  detectedFrequencies.any fun freq =>
    (DUAL_FREQUENCY_BANDS.any fun dual => decide (|freq - dual.1| ≤ FREQ_TOLERANCE))
    || (decide (GLONASS_L2_MIN - FREQ_TOLERANCE ≤ freq)
        && decide (freq ≤ GLONASS_L2_MAX + FREQ_TOLERANCE))

/-- Error kinds with which the native methods reject their promise. -/
inductive NativeError
  | permissionDenied
  | gnssError
  | startListeningError
  | stopListeningError
deriving DecidableEq, Repr

/-- The status object assembled by the native getGNSSStatus. -/
structure GnssStatusNativeResult where
  isGNSSSupported : Bool
  satellitesVisible : ℕ
  satellitesUsedInFix : ℕ
  averageSignalToNoise : ℚ
  supportedConstellations : List String
  carrierFrequencies : List ℚ
  satellites : List SatelliteData
  isDualFrequencySupported : Bool
  isNavICSupported : Bool
deriving DecidableEq, Repr

/-- getGNSSStatus of the native module: rejects with PERMISSION_DENIED
when location permission is missing, otherwise assembles the status
object from the current module state. -/
def getGNSSStatus (hasLocationPermission : Bool) (gpsProviderEnabled : Bool)
    (st : ModuleState) : Except NativeError GnssStatusNativeResult :=
  if !hasLocationPermission then
    Except.error NativeError.permissionDenied
  else
    Except.ok
      { isGNSSSupported := gpsProviderEnabled
        satellitesVisible := st.currentSatelliteCount
        satellitesUsedInFix := st.satellitesUsedInFix
        averageSignalToNoise := st.averageSignalToNoise
        supportedConstellations := st.supportedConstellations.map getConstellationName
        carrierFrequencies := st.detectedFrequencies
        satellites := st.satelliteDataList
        isDualFrequencySupported := coarseIsDualFrequencySupported st.detectedFrequencies
        isNavICSupported := st.supportedConstellations.contains 7 }

/-- startListening of the native module: rejects with PERMISSION_DENIED
when location permission is missing, otherwise registers the callbacks
(modelled as flags) and resolves. -/
def startListening (hasLocationPermission : Bool)
    (st : ModuleState) : Except NativeError ModuleState :=
  if !hasLocationPermission then
    Except.error NativeError.permissionDenied
  else
    Except.ok { st with
      statusCallbackRegistered := true
      measurementsCallbackRegistered := true }

end GnssStatusCheckerModule

/- Spec-side reference table, used only to compare the classifier against
the specification's words. -/

/-- Modelled from the spec: a section-4.1 table entry matcher is either a
single nominal frequency or a min-max range (GLONASS L1/L2). -/
inductive BandDescriptor
  | nominal (value : ℚ)
  | rangeMinMax (lo hi : ℚ)
deriving DecidableEq, Repr

/-- Modelled from the spec: one row of the section-4.1 reference table. -/
structure SpecEntry where
  descriptor : BandDescriptor
  constellation : String
  band : String
  isDualFrequency : Bool
deriving DecidableEq, Repr

/-- Modelled from the spec: a frequency matches a table row when it is
within tolerance of the nominal value, or inside the range widened by the
tolerance on both sides. -/
def specMatches (e : SpecEntry) (f tol : ℚ) : Bool :=
  match e.descriptor with
  | BandDescriptor.nominal c => decide (|f - c| ≤ tol)
  | BandDescriptor.rangeMinMax lo hi => decide (lo - tol ≤ f ∧ f ≤ hi + tol)

/-- Modelled from the spec: the full section-4.1 reference table, in the
spec's declared priority order (constellation rows top to bottom, primary
band before secondary bands). Constellation names are rendered the way the
code renders them. -/
def SpecTable : List SpecEntry :=
  [⟨BandDescriptor.nominal 1575.42, "GPS", "L1", false⟩,
   ⟨BandDescriptor.nominal 1227.6, "GPS", "L2", true⟩,
   ⟨BandDescriptor.nominal 1176.45, "GPS", "L5", true⟩,
   ⟨BandDescriptor.rangeMinMax 1598.0625 1605.375, "GLONASS", "L1", false⟩,
   ⟨BandDescriptor.rangeMinMax 1242.9375 1248.625, "GLONASS", "L2", true⟩,
   ⟨BandDescriptor.nominal 1176.45, "GLONASS", "L5", true⟩,
   ⟨BandDescriptor.nominal 1575.42, "GALILEO", "E1", false⟩,
   ⟨BandDescriptor.nominal 1176.45, "GALILEO", "E5a", true⟩,
   ⟨BandDescriptor.nominal 1207.14, "GALILEO", "E5b", true⟩,
   ⟨BandDescriptor.nominal 1191.795, "GALILEO", "E5", true⟩,
   ⟨BandDescriptor.nominal 1278.75, "GALILEO", "E6", true⟩,
   ⟨BandDescriptor.nominal 1561.098, "BEIDOU", "B1", false⟩,
   ⟨BandDescriptor.nominal 1176.45, "BEIDOU", "B2a", true⟩,
   ⟨BandDescriptor.nominal 1207.14, "BEIDOU", "B2", true⟩,
   ⟨BandDescriptor.nominal 1268.52, "BEIDOU", "B3", true⟩,
   ⟨BandDescriptor.nominal 1575.42, "QZSS", "L1", false⟩,
   ⟨BandDescriptor.nominal 1227.6, "QZSS", "L2", true⟩,
   ⟨BandDescriptor.nominal 1176.45, "QZSS", "L5", true⟩,
   ⟨BandDescriptor.nominal 1278.75, "QZSS", "LEX", true⟩,
   ⟨BandDescriptor.nominal 1176.45, "NAVIC", "L5", true⟩,
   ⟨BandDescriptor.nominal 2492.028, "NAVIC", "S", true⟩,
   ⟨BandDescriptor.nominal 1575.42, "SBAS", "L1", false⟩,
   ⟨BandDescriptor.nominal 1176.45, "SBAS", "L5", true⟩]

/-- The section-4.1 table restricted to the rows the classifier implements:
the Galileo E5 (1191.795), Galileo E6 (1278.75) and QZSS LEX (1278.75)
rows are absent, because identifyFrequencyBand has no branch within 1 MHz
of 1191.795 or 1278.75 and classifies those frequencies as UNKNOWN. -/
def SpecTableImpl : List SpecEntry :=
  [⟨BandDescriptor.nominal 1575.42, "GPS", "L1", false⟩,
   ⟨BandDescriptor.nominal 1227.6, "GPS", "L2", true⟩,
   ⟨BandDescriptor.nominal 1176.45, "GPS", "L5", true⟩,
   ⟨BandDescriptor.rangeMinMax 1598.0625 1605.375, "GLONASS", "L1", false⟩,
   ⟨BandDescriptor.rangeMinMax 1242.9375 1248.625, "GLONASS", "L2", true⟩,
   ⟨BandDescriptor.nominal 1176.45, "GLONASS", "L5", true⟩,
   ⟨BandDescriptor.nominal 1575.42, "GALILEO", "E1", false⟩,
   ⟨BandDescriptor.nominal 1176.45, "GALILEO", "E5a", true⟩,
   ⟨BandDescriptor.nominal 1207.14, "GALILEO", "E5b", true⟩,
   ⟨BandDescriptor.nominal 1561.098, "BEIDOU", "B1", false⟩,
   ⟨BandDescriptor.nominal 1176.45, "BEIDOU", "B2a", true⟩,
   ⟨BandDescriptor.nominal 1207.14, "BEIDOU", "B2", true⟩,
   ⟨BandDescriptor.nominal 1268.52, "BEIDOU", "B3", true⟩,
   ⟨BandDescriptor.nominal 1575.42, "QZSS", "L1", false⟩,
   ⟨BandDescriptor.nominal 1227.6, "QZSS", "L2", true⟩,
   ⟨BandDescriptor.nominal 1176.45, "QZSS", "L5", true⟩,
   ⟨BandDescriptor.nominal 1176.45, "NAVIC", "L5", true⟩,
   ⟨BandDescriptor.nominal 2492.028, "NAVIC", "S", true⟩,
   ⟨BandDescriptor.nominal 1575.42, "SBAS", "L1", false⟩,
   ⟨BandDescriptor.nominal 1176.45, "SBAS", "L5", true⟩]

/-- The first table row matched by a frequency, scanning in priority
order (the spec's tie-break rule). -/
def specFirstMatch : List SpecEntry → ℚ → ℚ → Option SpecEntry
  | [], _, _ => none
  | e :: rest, f, tol =>
    if specMatches e f tol then some e else specFirstMatch rest f tol

/-- The classification the spec's table prescribes (restricted to the
implemented rows) at the default tolerance 1: the first matching row's
identity, or the UNKNOWN result. -/
def specClassifyImpl (f : ℚ) : FrequencyBandInfo :=
  match specFirstMatch SpecTableImpl f 1 with
  | some e =>
    { frequency := f, constellation := e.constellation, band := e.band,
      isDualFrequency := e.isDualFrequency }
  | none =>
    { frequency := f, constellation := "UNKNOWN", band := "UNKNOWN", isDualFrequency := false }


lemma classify_eq_specClassifyImpl (f : ℚ) :
    identifyFrequencyBand f 1 = specClassifyImpl f := by
  unfold identifyFrequencyBand specClassifyImpl
  simp only [CarrierFrequencies.GPS_L1, CarrierFrequencies.GPS_L2, CarrierFrequencies.GPS_L5,
    CarrierFrequencies.GLONASS_L1_MIN, CarrierFrequencies.GLONASS_L1_MAX,
    CarrierFrequencies.GLONASS_L2_MIN, CarrierFrequencies.GLONASS_L2_MAX,
    CarrierFrequencies.GLONASS_L5, CarrierFrequencies.GALILEO_E1,
    CarrierFrequencies.GALILEO_E5a, CarrierFrequencies.GALILEO_E5b,
    CarrierFrequencies.BEIDOU_B1, CarrierFrequencies.BEIDOU_B2a, CarrierFrequencies.BEIDOU_B3,
    CarrierFrequencies.QZSS_L1, CarrierFrequencies.QZSS_L5, CarrierFrequencies.NAVIC_L5,
    CarrierFrequencies.NAVIC_S, CarrierFrequencies.SBAS_L1, CarrierFrequencies.SBAS_L5]
  by_cases h1 : |f - (1575.42 : ℚ)| ≤ 1
  · simp [specFirstMatch, SpecTableImpl, specMatches, h1]
  by_cases h2 : |f - (1227.6 : ℚ)| ≤ 1
  · simp [specFirstMatch, SpecTableImpl, specMatches, h1, h2]
  by_cases h3 : |f - (1176.45 : ℚ)| ≤ 1
  · simp [specFirstMatch, SpecTableImpl, specMatches, h1, h2, h3]
  by_cases h4 : (1598.0625 : ℚ) ≤ f + 1 ∧ f ≤ 1605.375 + 1
  · simp [specFirstMatch, SpecTableImpl, specMatches, h1, h2, h3, h4]
  by_cases h5 : (1242.9375 : ℚ) ≤ f + 1 ∧ f ≤ 1248.625 + 1
  · simp [specFirstMatch, SpecTableImpl, specMatches, h1, h2, h3, h4, h5]
  by_cases h6 : |f - (1207.14 : ℚ)| ≤ 1
  · simp [specFirstMatch, SpecTableImpl, specMatches, h1, h2, h3, h4, h5, h6]
  by_cases h7 : |f - (1561.098 : ℚ)| ≤ 1
  · simp [specFirstMatch, SpecTableImpl, specMatches, h1, h2, h3, h4, h5, h6, h7]
  by_cases h8 : |f - (1268.52 : ℚ)| ≤ 1
  · simp [specFirstMatch, SpecTableImpl, specMatches, h1, h2, h3, h4, h5, h6, h7, h8]
  by_cases h9 : |f - (2492.028 : ℚ)| ≤ 1
  · simp [specFirstMatch, SpecTableImpl, specMatches, h1, h2, h3, h4, h5, h6, h7, h8, h9]
  simp [specFirstMatch, SpecTableImpl, specMatches, h1, h2, h3, h4, h5, h6, h7, h8, h9]

/-- The disjunction of the distinct branch conditions of
identifyFrequencyBand (shared nominals listed once). -/
def matchesAnyCondition (f tol : ℚ) : Prop :=
  |f - CarrierFrequencies.GPS_L1| ≤ tol ∨
  |f - CarrierFrequencies.GPS_L2| ≤ tol ∨
  |f - CarrierFrequencies.GPS_L5| ≤ tol ∨
  (CarrierFrequencies.GLONASS_L1_MIN - tol ≤ f ∧
    f ≤ CarrierFrequencies.GLONASS_L1_MAX + tol) ∨
  (CarrierFrequencies.GLONASS_L2_MIN - tol ≤ f ∧
    f ≤ CarrierFrequencies.GLONASS_L2_MAX + tol) ∨
  |f - CarrierFrequencies.GALILEO_E5b| ≤ tol ∨
  |f - CarrierFrequencies.BEIDOU_B1| ≤ tol ∨
  |f - CarrierFrequencies.BEIDOU_B3| ≤ tol ∨
  |f - CarrierFrequencies.NAVIC_S| ≤ tol

lemma constellation_unknown_iff (f tol : ℚ) :
    (identifyFrequencyBand f tol).constellation = "UNKNOWN" ↔
      ¬ matchesAnyCondition f tol := by
  unfold identifyFrequencyBand matchesAnyCondition
  simp only [CarrierFrequencies.GPS_L1, CarrierFrequencies.GPS_L2, CarrierFrequencies.GPS_L5,
    CarrierFrequencies.GLONASS_L1_MIN, CarrierFrequencies.GLONASS_L1_MAX,
    CarrierFrequencies.GLONASS_L2_MIN, CarrierFrequencies.GLONASS_L2_MAX,
    CarrierFrequencies.GLONASS_L5, CarrierFrequencies.GALILEO_E1,
    CarrierFrequencies.GALILEO_E5a, CarrierFrequencies.GALILEO_E5b,
    CarrierFrequencies.BEIDOU_B1, CarrierFrequencies.BEIDOU_B2a, CarrierFrequencies.BEIDOU_B3,
    CarrierFrequencies.QZSS_L1, CarrierFrequencies.QZSS_L5, CarrierFrequencies.NAVIC_L5,
    CarrierFrequencies.NAVIC_S, CarrierFrequencies.SBAS_L1, CarrierFrequencies.SBAS_L5]
  split_ifs with h1 h2 h3 h4 h5 h6 h7 h8 h9
  · exact iff_of_false (show ¬("GPS" = "UNKNOWN") by decide) (not_not_intro (Or.inl h1))
  · exact iff_of_false (show ¬("GPS" = "UNKNOWN") by decide) (not_not_intro (Or.inr (Or.inl h2)))
  · exact iff_of_false (show ¬("GPS" = "UNKNOWN") by decide) (not_not_intro (Or.inr (Or.inr (Or.inl h3))))
  · exact iff_of_false (show ¬("GLONASS" = "UNKNOWN") by decide) (not_not_intro (Or.inr (Or.inr (Or.inr (Or.inl h4)))))
  · exact iff_of_false (show ¬("GLONASS" = "UNKNOWN") by decide)
      (not_not_intro (Or.inr (Or.inr (Or.inr (Or.inr (Or.inl h5))))))
  · exact iff_of_false (show ¬("GALILEO" = "UNKNOWN") by decide)
      (not_not_intro (Or.inr (Or.inr (Or.inr (Or.inr (Or.inr (Or.inl h6)))))))
  · exact iff_of_false (show ¬("BEIDOU" = "UNKNOWN") by decide)
      (not_not_intro (Or.inr (Or.inr (Or.inr (Or.inr (Or.inr (Or.inr (Or.inl h7))))))))
  · exact iff_of_false (show ¬("BEIDOU" = "UNKNOWN") by decide)
      (not_not_intro (Or.inr (Or.inr (Or.inr (Or.inr (Or.inr (Or.inr (Or.inr
        (Or.inl h8)))))))))
  · exact iff_of_false (show ¬("NAVIC" = "UNKNOWN") by decide)
      (not_not_intro (Or.inr (Or.inr (Or.inr (Or.inr (Or.inr (Or.inr (Or.inr
        (Or.inr h9)))))))))
  · exact iff_of_true rfl
      (by
        simp only [not_or]
        exact ⟨h1, h2, h3, h4, h5, h6, h7, h8, h9⟩)

lemma matchesAnyCondition_mono {f t t' : ℚ} (htt' : t ≤ t')
    (h : matchesAnyCondition f t) : matchesAnyCondition f t' := by
  unfold matchesAnyCondition at h ⊢
  rcases h with h | h | h | h | h | h | h | h | h
  · exact Or.inl (h.trans htt')
  · exact Or.inr (Or.inl (h.trans htt'))
  · exact Or.inr (Or.inr (Or.inl (h.trans htt')))
  · exact Or.inr (Or.inr (Or.inr (Or.inl
      ⟨by linarith [h.1], by linarith [h.2]⟩)))
  · exact Or.inr (Or.inr (Or.inr (Or.inr (Or.inl
      ⟨by linarith [h.1], by linarith [h.2]⟩))))
  · exact Or.inr (Or.inr (Or.inr (Or.inr (Or.inr (Or.inl (h.trans htt'))))))
  · exact Or.inr (Or.inr (Or.inr (Or.inr (Or.inr (Or.inr (Or.inl (h.trans htt')))))))
  · exact Or.inr (Or.inr (Or.inr (Or.inr (Or.inr (Or.inr (Or.inr (Or.inl
      (h.trans htt'))))))))
  · exact Or.inr (Or.inr (Or.inr (Or.inr (Or.inr (Or.inr (Or.inr (Or.inr
      (h.trans htt'))))))))

/-- The source's filter-then-project signal extraction equals filterMap. -/
lemma signalStrengths_eq_filterMap (satellites : List SatelliteInfo) :
    ((satellites.filter fun sat => sat.cn0DbHz.isSome).map fun sat => sat.cn0DbHz.getD 0) =
      satellites.filterMap fun sat => sat.cn0DbHz := by
  induction satellites with
  | nil => rfl
  | cons s rest ih =>
    cases h : s.cn0DbHz with
    | none => simpa [List.filter_cons, List.filterMap_cons, h] using ih
    | some c => simpa [List.filter_cons, List.filterMap_cons, h] using ih

lemma le_foldl_max (cs : List ℚ) (c : ℚ) : c ≤ cs.foldl max c := by
  induction cs generalizing c with
  | nil => exact le_refl c
  | cons a t ih => exact le_trans (le_max_left c a) (ih (max c a))

lemma mem_le_foldl_max (cs : List ℚ) (c : ℚ) : ∀ x ∈ cs, x ≤ cs.foldl max c := by
  induction cs generalizing c with
  | nil => intro x hx; cases hx
  | cons a t ih =>
    intro x hx
    rcases List.mem_cons.mp hx with hx | hx
    · subst hx
      exact le_trans (le_max_right c x) (le_foldl_max t (max c x))
    · exact ih (max c a) x hx

lemma foldl_max_mem (cs : List ℚ) (c : ℚ) : cs.foldl max c = c ∨ cs.foldl max c ∈ cs := by
  induction cs generalizing c with
  | nil => exact Or.inl rfl
  | cons a t ih =>
    rcases ih (max c a) with h | h
    · rcases max_choice c a with hm | hm
      · exact Or.inl (by rw [List.foldl_cons, h, hm])
      · exact Or.inr (by rw [List.foldl_cons, h, hm]; exact List.mem_cons_self a t)
    · exact Or.inr (List.mem_cons_of_mem a h)

lemma foldl_min_le (cs : List ℚ) (c : ℚ) : cs.foldl min c ≤ c := by
  induction cs generalizing c with
  | nil => exact le_refl c
  | cons a t ih => exact le_trans (ih (min c a)) (min_le_left c a)

lemma foldl_min_le_mem (cs : List ℚ) (c : ℚ) : ∀ x ∈ cs, cs.foldl min c ≤ x := by
  induction cs generalizing c with
  | nil => intro x hx; cases hx
  | cons a t ih =>
    intro x hx
    rcases List.mem_cons.mp hx with hx | hx
    · subst hx
      exact le_trans (foldl_min_le t (min c x)) (min_le_right c x)
    · exact ih (min c a) x hx

lemma foldl_min_mem (cs : List ℚ) (c : ℚ) : cs.foldl min c = c ∨ cs.foldl min c ∈ cs := by
  induction cs generalizing c with
  | nil => exact Or.inl rfl
  | cons a t ih =>
    rcases ih (min c a) with h | h
    · rcases min_choice c a with hm | hm
      · exact Or.inl (by rw [List.foldl_cons, h, hm])
      · exact Or.inr (by rw [List.foldl_cons, h, hm]; exact List.mem_cons_self a t)
    · exact Or.inr (List.mem_cons_of_mem a h)

/-- Incrementing matching entries leaves the key list unchanged. -/
lemma bump_map_fst (name : String) (m : List (String × ℕ)) :
    ((m.map fun p => if p.1 = name then (p.1, p.2 + 1) else p).map Prod.fst) =
      m.map Prod.fst := by
  induction m with
  | nil => rfl
  | cons p t ih => by_cases hp : p.1 = name <;> simp [hp, ih]

/-- Keys of the association list built by bumpConstellation. -/
lemma bumpConstellation_keys (m : List (String × ℕ)) (name : String) :
    (bumpConstellation m name).map Prod.fst =
      if m.any fun p => p.1 = name then m.map Prod.fst
      else m.map Prod.fst ++ [name] := by
  unfold bumpConstellation
  split_ifs with h
  · exact bump_map_fst name m
  · simp

lemma bumpConstellation_keys_nodup (m : List (String × ℕ)) (name : String)
    (h : (m.map Prod.fst).Nodup) : ((bumpConstellation m name).map Prod.fst).Nodup := by
  rw [bumpConstellation_keys]
  split_ifs with hc
  · exact h
  · rw [List.nodup_append]
    refine ⟨h, List.nodup_singleton name, ?_⟩
    intro a ha hb
    rcases List.mem_singleton.mp hb with rfl
    rcases List.mem_map.mp ha with ⟨p, hp, hpa⟩
    exact hc (List.any_eq_true.mpr ⟨p, hp, by simp [hpa]⟩)

/-- When no entry has the key, the increment map is the identity. -/
lemma bump_map_of_not_mem (name : String) (t : List (String × ℕ))
    (h : ∀ p ∈ t, p.1 ≠ name) :
    (t.map fun p => if p.1 = name then (p.1, p.2 + 1) else p) = t := by
  induction t with
  | nil => rfl
  | cons q r ih =>
    simp only [List.map_cons, if_neg (h q (List.mem_cons_self q r))]
    rw [ih fun p hp => h p (List.mem_cons_of_mem q hp)]

/-- With distinct keys, incrementing the (unique) matching entry raises the
value sum by one. -/
lemma bump_map_sum (name : String) (m : List (String × ℕ))
    (hnodup : (m.map Prod.fst).Nodup) (hmem : (m.any fun p => p.1 = name) = true) :
    ((m.map fun p => if p.1 = name then (p.1, p.2 + 1) else p).map Prod.snd).sum =
      (m.map Prod.snd).sum + 1 := by
  induction m with
  | nil => cases hmem
  | cons p t ih =>
    simp only [List.map_cons, List.nodup_cons] at hnodup ⊢
    by_cases hp : p.1 = name
    · have htid : (t.map fun q => if q.1 = name then (q.1, q.2 + 1) else q) = t := by
        refine bump_map_of_not_mem name t fun q hq hqn => ?_
        exact hnodup.1 (by rw [← hp] at hqn; exact hqn ▸ List.mem_map_of_mem Prod.fst hq)
      simp only [if_pos hp, htid, List.sum_cons]
      omega
    · have htmem : (t.any fun q => q.1 = name) = true := by
        rcases List.any_eq_true.mp hmem with ⟨q, hq, hqn⟩
        rcases List.mem_cons.mp hq with rfl | hq
        · exact absurd (of_decide_eq_true hqn) hp
        · exact List.any_eq_true.mpr ⟨q, hq, hqn⟩
      simp only [if_neg hp, List.sum_cons, ih hnodup.2 htmem]
      omega

/-- Folding the grouping step over the satellite list adds one to the value
sum per satellite. -/
lemma foldl_bump_sum (sats : List SatelliteInfo) (m : List (String × ℕ))
    (h : (m.map Prod.fst).Nodup) :
    (((sats.foldl (fun acc sat => bumpConstellation acc sat.constellationName) m).map
        Prod.snd).sum) = (m.map Prod.snd).sum + sats.length := by
  induction sats generalizing m with
  | nil => simp
  | cons s rest ih =>
    rw [List.foldl_cons, ih _ (bumpConstellation_keys_nodup m s.constellationName h)]
    have hb : ((bumpConstellation m s.constellationName).map Prod.snd).sum =
        (m.map Prod.snd).sum + 1 := by
      unfold bumpConstellation
      split_ifs with hc
      · exact bump_map_sum _ _ h hc
      · simp
    rw [hb]
    simp only [List.length_cons]
    omega

/- Concrete satellite records used for the spec's worked examples. -/

def satAlpha : SatelliteInfo :=
  { svid := 1, constellationType := 1, constellationName := "GPS", cn0DbHz := some 25,
    elevation := some 45, azimuth := some 180, hasEphemeris := true, hasAlmanac := true,
    usedInFix := true, carrierFrequencyHz := some 1575420000 }

def satBeta : SatelliteInfo :=
  { svid := 2, constellationType := 3, constellationName := "GLONASS", cn0DbHz := some 30,
    elevation := none, azimuth := none, hasEphemeris := true, hasAlmanac := false,
    usedInFix := false, carrierFrequencyHz := none }

def satGamma : SatelliteInfo :=
  { svid := 3, constellationType := 5, constellationName := "BEIDOU", cn0DbHz := none,
    elevation := none, azimuth := none, hasEphemeris := false, hasAlmanac := true,
    usedInFix := true, carrierFrequencyHz := none }

/-- The spec's mixed example list: signals 25.0, 30.0 and one absent. -/
def mixedSatellites : List SatelliteInfo := [satAlpha, satBeta, satGamma]

/-- Claim C3: shared nominals resolve to the first table entry in priority
order: 1176.45 classifies as GPS L5 (dual-frequency), not as Galileo E5a,
BeiDou B2a, QZSS L5, NavIC L5 or SBAS L5; and 1575.42 classifies as the
first-priority GPS L1 entry with isDualFrequency false. -/
theorem spec_C3_priority_order :
    identifyFrequencyBand 1176.45 1 =
      { frequency := 1176.45, constellation := "GPS", band := "L5", isDualFrequency := true }
    ∧ identifyFrequencyBand 1575.42 1 =
      { frequency := 1575.42, constellation := "GPS", band := "L1",
        isDualFrequency := false } := by
  constructor <;>
    norm_num [identifyFrequencyBand, CarrierFrequencies.GPS_L1, CarrierFrequencies.GPS_L2,
      CarrierFrequencies.GPS_L5, abs_le]

/-- Claim C4: isDualFrequencySupported is true exactly when some listed
frequency classifies to a dual-frequency band; in particular it is false
on the empty list, true on 1575.42 with 1176.45, false on 1575.42 alone. -/
theorem spec_C4_dual_frequency_exists :
    (∀ fs : List ℚ, isDualFrequencySupported fs = true ↔
      ∃ f ∈ fs, (identifyFrequencyBand f 1).isDualFrequency = true)
    ∧ isDualFrequencySupported [] = false
    ∧ isDualFrequencySupported [1575.42, 1176.45] = true
    ∧ isDualFrequencySupported [1575.42] = false := by
  refine ⟨fun fs => ?_, rfl, by with_unfolding_all decide, by with_unfolding_all decide⟩
  simp [isDualFrequencySupported, List.any_eq_true]

/-- Claim C5: the classifier is total, echoes its input frequency, and any
frequency classified UNKNOWN yields the full well-defined UNKNOWN record
with isDualFrequency false. -/
theorem spec_C5_total_unknown_fallback (f tol : ℚ) :
    (identifyFrequencyBand f tol).frequency = f ∧
    ((identifyFrequencyBand f tol).constellation = "UNKNOWN" →
      identifyFrequencyBand f tol =
        { frequency := f, constellation := "UNKNOWN", band := "UNKNOWN",
          isDualFrequency := false }) := by
  unfold identifyFrequencyBand
  simp only [CarrierFrequencies.GPS_L1, CarrierFrequencies.GPS_L2, CarrierFrequencies.GPS_L5,
    CarrierFrequencies.GLONASS_L1_MIN, CarrierFrequencies.GLONASS_L1_MAX,
    CarrierFrequencies.GLONASS_L2_MIN, CarrierFrequencies.GLONASS_L2_MAX,
    CarrierFrequencies.GLONASS_L5, CarrierFrequencies.GALILEO_E1,
    CarrierFrequencies.GALILEO_E5a, CarrierFrequencies.GALILEO_E5b,
    CarrierFrequencies.BEIDOU_B1, CarrierFrequencies.BEIDOU_B2a, CarrierFrequencies.BEIDOU_B3,
    CarrierFrequencies.QZSS_L1, CarrierFrequencies.QZSS_L5, CarrierFrequencies.NAVIC_L5,
    CarrierFrequencies.NAVIC_S, CarrierFrequencies.SBAS_L1, CarrierFrequencies.SBAS_L5]
  split_ifs <;>
    refine ⟨rfl, fun h => ?_⟩ <;>
    first
      | rfl
      | exact absurd (show ("GPS" : String) = "UNKNOWN" from h) (by decide)
      | exact absurd (show ("GLONASS" : String) = "UNKNOWN" from h) (by decide)
      | exact absurd (show ("GALILEO" : String) = "UNKNOWN" from h) (by decide)
      | exact absurd (show ("BEIDOU" : String) = "UNKNOWN" from h) (by decide)
      | exact absurd (show ("QZSS" : String) = "UNKNOWN" from h) (by decide)
      | exact absurd (show ("NAVIC" : String) = "UNKNOWN" from h) (by decide)
      | exact absurd (show ("SBAS" : String) = "UNKNOWN" from h) (by decide)

/-- Witness for C5 at the spec's example input 9999.0. -/
theorem spec_C5_witness :
    identifyFrequencyBand 9999 1 =
      { frequency := 9999, constellation := "UNKNOWN", band := "UNKNOWN",
        isDualFrequency := false } :=
  (spec_C5_total_unknown_fallback 9999 1).2 (by with_unfolding_all decide)

/-- Claim C9: widening the tolerance never turns a classified frequency
into UNKNOWN. -/
theorem spec_C9_tolerance_monotone (f t t' : ℚ) (h0 : 0 ≤ t) (htt' : t ≤ t')
    (h : (identifyFrequencyBand f t).constellation ≠ "UNKNOWN") :
    (identifyFrequencyBand f t').constellation ≠ "UNKNOWN" := by
  intro hu
  rw [constellation_unknown_iff] at hu
  apply h
  rw [constellation_unknown_iff]
  intro hm
  exact hu (matchesAnyCondition_mono htt' hm)

/-- Witness for C9: 1227.6 is classified at tolerance 1, hence also at 2. -/
theorem spec_C9_witness :
    (identifyFrequencyBand 1227.6 2).constellation ≠ "UNKNOWN" :=
  spec_C9_tolerance_monotone 1227.6 1 2 (by norm_num) (by norm_num)
    (by with_unfolding_all decide)

/-- Claim C1 (amended): for every frequency, identifyFrequencyBand at the
default tolerance 1.0 returns exactly what the section-4.1 reference table
prescribes once the three unimplemented rows (Galileo E5 1191.795,
Galileo E6 1278.75, QZSS LEX 1278.75) are removed: the first matching row
in declared priority order, and the UNKNOWN record when no row is within
tolerance. The GLONASS L2 boundary points match with isDualFrequency true,
the point 1.1 MHz below the lower boundary does not, and NavIC S-band
2492.028 matches. -/
theorem spec_C1_classifier_agrees_with_table :
    (∀ f : ℚ, identifyFrequencyBand f 1 = specClassifyImpl f)
    ∧ identifyFrequencyBand 1242.9375 1 =
        { frequency := 1242.9375, constellation := "GLONASS", band := "L2",
          isDualFrequency := true }
    ∧ identifyFrequencyBand 1248.625 1 =
        { frequency := 1248.625, constellation := "GLONASS", band := "L2",
          isDualFrequency := true }
    ∧ identifyFrequencyBand (1242.9375 - 1.1) 1 =
        { frequency := 1242.9375 - 1.1, constellation := "UNKNOWN", band := "UNKNOWN",
          isDualFrequency := false }
    ∧ identifyFrequencyBand 2492.028 1 =
        { frequency := 2492.028, constellation := "NAVIC", band := "S",
          isDualFrequency := true } := by
  refine ⟨classify_eq_specClassifyImpl, ?_, ?_, ?_, ?_⟩ <;>
    norm_num [identifyFrequencyBand, CarrierFrequencies.GPS_L1, CarrierFrequencies.GPS_L2,
      CarrierFrequencies.GPS_L5, CarrierFrequencies.GLONASS_L1_MIN,
      CarrierFrequencies.GLONASS_L1_MAX, CarrierFrequencies.GLONASS_L2_MIN,
      CarrierFrequencies.GLONASS_L2_MAX, CarrierFrequencies.GLONASS_L5,
      CarrierFrequencies.GALILEO_E1, CarrierFrequencies.GALILEO_E5a,
      CarrierFrequencies.GALILEO_E5b, CarrierFrequencies.BEIDOU_B1,
      CarrierFrequencies.BEIDOU_B2a, CarrierFrequencies.BEIDOU_B3,
      CarrierFrequencies.QZSS_L1, CarrierFrequencies.QZSS_L5, CarrierFrequencies.NAVIC_L5,
      CarrierFrequencies.NAVIC_S, CarrierFrequencies.SBAS_L1, CarrierFrequencies.SBAS_L5,
      abs_le]

/-- Claim C1 counterexample: 1191.795 lies exactly on the full section-4.1
table's Galileo E5 nominal (the first matching row in priority order), yet
identifyFrequencyBand returns the UNKNOWN record for it. -/
theorem spec_C1_counterexample :
    specFirstMatch SpecTable 1191.795 1 =
      some { descriptor := BandDescriptor.nominal 1191.795, constellation := "GALILEO",
             band := "E5", isDualFrequency := true }
    ∧ identifyFrequencyBand 1191.795 1 =
      { frequency := 1191.795, constellation := "UNKNOWN", band := "UNKNOWN",
        isDualFrequency := false } := by
  constructor
  · norm_num [specFirstMatch, specMatches, SpecTable, abs_le]
  · norm_num [identifyFrequencyBand, CarrierFrequencies.GPS_L1, CarrierFrequencies.GPS_L2,
      CarrierFrequencies.GPS_L5, CarrierFrequencies.GLONASS_L1_MIN,
      CarrierFrequencies.GLONASS_L1_MAX, CarrierFrequencies.GLONASS_L2_MIN,
      CarrierFrequencies.GLONASS_L2_MAX, CarrierFrequencies.GLONASS_L5,
      CarrierFrequencies.GALILEO_E1, CarrierFrequencies.GALILEO_E5a,
      CarrierFrequencies.GALILEO_E5b, CarrierFrequencies.BEIDOU_B1,
      CarrierFrequencies.BEIDOU_B2a, CarrierFrequencies.BEIDOU_B3,
      CarrierFrequencies.QZSS_L1, CarrierFrequencies.QZSS_L5, CarrierFrequencies.NAVIC_L5,
      CarrierFrequencies.NAVIC_S, CarrierFrequencies.SBAS_L1, CarrierFrequencies.SBAS_L5,
      abs_le]

/-- Claim C2: 1191.795 MHz is a dual-frequency nominal of the reference
table (Galileo E5, matched at tolerance 1), yet the fine-grained path
(isDualFrequencySupported via identifyFrequencyBand) reports false while
the native coarse path reports true — the two paths disagree inside the
1 MHz tolerance, refuting the claimed agreement. -/
theorem spec_C2_divergence :
    (SpecTable.any fun e => e.isDualFrequency && specMatches e 1191.795 1) = true
    ∧ isDualFrequencySupported [1191.795] = false
    ∧ GnssStatusCheckerModule.coarseIsDualFrequencySupported [1191.795] = true := by
  refine ⟨by with_unfolding_all decide, by with_unfolding_all decide,
    by with_unfolding_all decide⟩

/-- Claim C7: getSatellitesWithGoodSignal returns exactly the records whose
signal is present and at least the threshold; a record with an absent
signal never appears, for every threshold including 0 and negatives. -/
theorem spec_C7_filter_by_min_signal (sats : List SatelliteInfo) (minCn0 : ℚ)
    (s : SatelliteInfo) :
    (s ∈ getSatellitesWithGoodSignal sats minCn0 ↔
      s ∈ sats ∧ ∃ c, s.cn0DbHz = some c ∧ minCn0 ≤ c)
    ∧ (s.cn0DbHz = none → s ∉ getSatellitesWithGoodSignal sats minCn0) := by
  have hmem : s ∈ getSatellitesWithGoodSignal sats minCn0 ↔
      s ∈ sats ∧ ∃ c, s.cn0DbHz = some c ∧ minCn0 ≤ c := by
    unfold getSatellitesWithGoodSignal
    simp only [List.mem_filter]
    constructor
    · rintro ⟨hs, hp⟩
      refine ⟨hs, ?_⟩
      cases h : s.cn0DbHz with
      | none => rw [h] at hp; cases hp
      | some c =>
        rw [h] at hp
        exact ⟨c, rfl, of_decide_eq_true hp⟩
    · rintro ⟨hs, c, hc, hcge⟩
      refine ⟨hs, ?_⟩
      rw [hc]
      exact decide_eq_true hcge
  refine ⟨hmem, fun hn hin => ?_⟩
  rcases (hmem.mp hin).2 with ⟨c, hc, _⟩
  rw [hn] at hc
  cases hc

/-- Witness for C7: the absent-signal record is excluded at threshold 0. -/
theorem spec_C7_witness :
    satGamma ∉ getSatellitesWithGoodSignal [satAlpha, satGamma] 0 :=
  (spec_C7_filter_by_min_signal [satAlpha, satGamma] 0 satGamma).2 rfl

/-- Claim C8: without location permission both getGNSSStatus and
startListening reject with the distinguishable PermissionDenied error and
produce no success value; success is reached only with permission. -/
theorem spec_C8_permission_gate (hasPermission gpsEnabled : Bool)
    (st : GnssStatusCheckerModule.ModuleState) :
    (hasPermission = false →
      GnssStatusCheckerModule.getGNSSStatus hasPermission gpsEnabled st =
        Except.error GnssStatusCheckerModule.NativeError.permissionDenied ∧
      GnssStatusCheckerModule.startListening hasPermission st =
        Except.error GnssStatusCheckerModule.NativeError.permissionDenied)
    ∧ (∀ r, GnssStatusCheckerModule.getGNSSStatus hasPermission gpsEnabled st =
        Except.ok r → hasPermission = true)
    ∧ (∀ st', GnssStatusCheckerModule.startListening hasPermission st =
        Except.ok st' → hasPermission = true) := by
  refine ⟨fun hp => ?_, fun r hr => ?_, fun st' hs => ?_⟩
  · subst hp
    exact ⟨rfl, rfl⟩
  · cases hasPermission
    · simp [GnssStatusCheckerModule.getGNSSStatus] at hr
    · rfl
  · cases hasPermission
    · simp [GnssStatusCheckerModule.startListening] at hs
    · rfl

/-- Witness for C8 in the initial module state with permission denied. -/
theorem spec_C8_witness :
    GnssStatusCheckerModule.getGNSSStatus false true
        GnssStatusCheckerModule.initialModuleState =
      Except.error GnssStatusCheckerModule.NativeError.permissionDenied ∧
    GnssStatusCheckerModule.startListening false
        GnssStatusCheckerModule.initialModuleState =
      Except.error GnssStatusCheckerModule.NativeError.permissionDenied :=
  (spec_C8_permission_gate false true GnssStatusCheckerModule.initialModuleState).1 rfl

/-- Claim C10: the statistics agree with the filters (usedInFix and
withGoodSignal counts), and the byConstellation counts sum to the total. -/
theorem spec_C10_statistics_consistency (sats : List SatelliteInfo) :
    (getSatelliteStatistics sats).usedInFix = (getSatellitesUsedInFix sats).length
    ∧ (getSatelliteStatistics sats).withGoodSignal =
        (getSatellitesWithGoodSignal sats 20).length
    ∧ ((getSatelliteStatistics sats).byConstellation.map Prod.snd).sum =
        (getSatelliteStatistics sats).total := by
  refine ⟨rfl, rfl, ?_⟩
  show ((sats.foldl (fun acc sat => bumpConstellation acc sat.constellationName) []).map
      Prod.snd).sum = sats.length
  simpa using foldl_bump_sum sats [] (by simp)

/-- Claim C6: mean, maximum and minimum are taken over exactly the present
signals (the maximum and minimum are members of and bounds for that set,
the mean is its sum over its size); with no present signal all three are
the 0 sentinel; statistics of the empty list is the all-zero record; and
the spec's mixed example with signals 25.0, 30.0 and one absent yields
average 27.5, strongest 30, weakest 25 and withGoodSignal 2. -/
theorem spec_C6_signal_statistics :
    (∀ sats : List SatelliteInfo,
      ((sats.filterMap fun sat => sat.cn0DbHz) = [] →
        (getSatelliteStatistics sats).averageSignalStrength = 0 ∧
        (getSatelliteStatistics sats).strongestSignal = 0 ∧
        (getSatelliteStatistics sats).weakestSignal = 0) ∧
      ((sats.filterMap fun sat => sat.cn0DbHz) ≠ [] →
        (getSatelliteStatistics sats).averageSignalStrength =
          (sats.filterMap fun sat => sat.cn0DbHz).sum /
            (((sats.filterMap fun sat => sat.cn0DbHz).length : ℚ)) ∧
        (getSatelliteStatistics sats).strongestSignal ∈
          (sats.filterMap fun sat => sat.cn0DbHz) ∧
        (∀ x ∈ sats.filterMap fun sat => sat.cn0DbHz,
          x ≤ (getSatelliteStatistics sats).strongestSignal) ∧
        (getSatelliteStatistics sats).weakestSignal ∈
          (sats.filterMap fun sat => sat.cn0DbHz) ∧
        (∀ x ∈ sats.filterMap fun sat => sat.cn0DbHz,
          (getSatelliteStatistics sats).weakestSignal ≤ x)))
    ∧ getSatelliteStatistics [] =
        { total := 0, usedInFix := 0, withEphemeris := 0, withAlmanac := 0,
          withGoodSignal := 0, byConstellation := [], averageSignalStrength := 0,
          strongestSignal := 0, weakestSignal := 0 }
    ∧ (getSatelliteStatistics mixedSatellites).averageSignalStrength = 27.5
    ∧ (getSatelliteStatistics mixedSatellites).strongestSignal = 30
    ∧ (getSatelliteStatistics mixedSatellites).weakestSignal = 25
    ∧ (getSatelliteStatistics mixedSatellites).withGoodSignal = 2 := by
  refine ⟨fun sats => ⟨fun hempty => ?_, fun hne => ?_⟩, rfl, ?_, ?_, ?_, ?_⟩
  · have hsig := signalStrengths_eq_filterMap sats
    refine ⟨?_, ?_, ?_⟩ <;> simp [getSatelliteStatistics, hsig, hempty]
  · have hsig := signalStrengths_eq_filterMap sats
    cases hc : sats.filterMap fun sat => sat.cn0DbHz with
    | nil => exact absurd hc hne
    | cons c cs =>
      have havg : (getSatelliteStatistics sats).averageSignalStrength =
          (c :: cs).sum / ((c :: cs).length : ℚ) := by
        simp [getSatelliteStatistics, hsig, hc]
      have hmax : (getSatelliteStatistics sats).strongestSignal = cs.foldl max c := by
        simp [getSatelliteStatistics, hsig, hc]
      have hmin : (getSatelliteStatistics sats).weakestSignal = cs.foldl min c := by
        simp [getSatelliteStatistics, hsig, hc]
      refine ⟨by rw [havg], ?_, ?_, ?_, ?_⟩
      · rw [hmax]
        rcases foldl_max_mem cs c with h | h
        · rw [h]; exact List.mem_cons_self c cs
        · exact List.mem_cons_of_mem c h
      · intro x hx
        rw [hmax]
        rcases List.mem_cons.mp hx with rfl | hx
        · exact le_foldl_max cs x
        · exact mem_le_foldl_max cs c x hx
      · rw [hmin]
        rcases foldl_min_mem cs c with h | h
        · rw [h]; exact List.mem_cons_self c cs
        · exact List.mem_cons_of_mem c h
      · intro x hx
        rw [hmin]
        rcases List.mem_cons.mp hx with rfl | hx
        · exact foldl_min_le cs x
        · exact foldl_min_le_mem cs c x hx
  · norm_num [getSatelliteStatistics, mixedSatellites, satAlpha, satBeta, satGamma]
  · norm_num [getSatelliteStatistics, mixedSatellites, satAlpha, satBeta, satGamma,
      max_def]
  · norm_num [getSatelliteStatistics, mixedSatellites, satAlpha, satBeta, satGamma,
      min_def]
  · norm_num [getSatelliteStatistics, mixedSatellites, satAlpha, satBeta, satGamma]

/-- Witness for C6 on the mixed example list (present signals 25 and 30). -/
theorem spec_C6_witness :
    (getSatelliteStatistics mixedSatellites).averageSignalStrength =
      ((mixedSatellites.filterMap fun sat => sat.cn0DbHz).sum /
        (((mixedSatellites.filterMap fun sat => sat.cn0DbHz).length : ℚ))) ∧
    (getSatelliteStatistics mixedSatellites).strongestSignal ∈
      (mixedSatellites.filterMap fun sat => sat.cn0DbHz) :=
  ⟨((spec_C6_signal_statistics.1 mixedSatellites).2
      (by simp [mixedSatellites, satAlpha, satBeta, satGamma])).1,
   ((spec_C6_signal_statistics.1 mixedSatellites).2
      (by simp [mixedSatellites, satAlpha, satBeta, satGamma])).2.1⟩
